import Mathlib

/-
  Verification of the authenticated-HTTP-client + token-refresh flow of the
  expo-template repository.

  The embedding translates, from the TypeScript source:
    - cache-storage.ts / secure-storage.ts  (CacheStorageService, SecureStorageService)
    - storage-keys.ts                        (STORAGE_KEYS)
    - auth-storage.ts                        (AuthStorage: saveToken, getAccessToken,
                                              getRefreshToken, isTokenExpired, clearToken,
                                              saveUser, getUser, clearUser, clearAll)
    - auth-service.ts                        (AuthService: login, logout, refreshToken, checkAuth)
    - auth-context.tsx                       (AuthProvider: initAuth, login)
    - error-handler.ts                       (handleNetworkError, shouldReLogin; its source
                                              is bundled inside api-config.ts after a
                                              related-doc separator)
    - interceptors.ts + http-client.ts       (request pipeline with 401 refresh-and-retry)

  Asynchronous effectful methods become explicit state-passing functions over a
  two-partition string key-value store.  Backend failures (AsyncStorage /
  SecureStore rejections) are injected through a fault oracle so that the
  try/catch structure of each wrapper is represented faithfully: a caught
  exception that the source converts to `null` becomes `.ok none`, a rethrown
  exception stays `.error`.
-/

deriving instance DecidableEq for Except

namespace ExpoTemplate

/-- An association-list key-value store: the state of one storage partition
(AsyncStorage or SecureStore).  Later writes shadow earlier ones. -/
structure KV where
  data : List (String × String)
deriving DecidableEq

def KV.get (kv : KV) (k : String) : Option String :=
  (kv.data.find? (fun p => p.1 == k)).map Prod.snd

def KV.set (kv : KV) (k v : String) : KV :=
  ⟨(k, v) :: kv.data.filter (fun p => p.1 != k)⟩

def KV.remove (kv : KV) (k : String) : KV :=
  ⟨kv.data.filter (fun p => p.1 != k)⟩

def KV.empty : KV := ⟨[]⟩

/-- The two storage partitions: `secure` backs expo-secure-store
(SecureStorageService), `cache` backs AsyncStorage (CacheStorageService). -/
structure StoreState where
  secure : KV
  cache : KV
deriving DecidableEq

def StoreState.empty : StoreState := ⟨KV.empty, KV.empty⟩

/-- Fault oracle: which backend operations reject, per partition, operation and
key.  Models the independent fallibility of every storage call. -/
structure FaultSpec where
  cacheGetFails : String → Bool
  cacheSetFails : String → Bool
  cacheRemoveFails : String → Bool
  secureGetFails : String → Bool
  secureSetFails : String → Bool
  secureRemoveFails : String → Bool

def noFaults : FaultSpec :=
  ⟨fun _ => false, fun _ => false, fun _ => false,
   fun _ => false, fun _ => false, fun _ => false⟩

def allReadFaults : FaultSpec :=
  ⟨fun _ => true, fun _ => true, fun _ => true,
   fun _ => true, fun _ => true, fun _ => true⟩

inductive StorageError where
  | backend (key : String)
deriving DecidableEq

/-- Result of one storage-layer call: the store state after the call together
with either a value or a propagated (rethrown) error. -/
abbrev StOut (α : Type) := StoreState × Except StorageError α

/-- Sequencing of storage calls inside one async method body: a thrown error
short-circuits the rest of the body (later awaits do not run). -/
def StOut.bind (x : StOut α) (g : StoreState → α → StOut β) : StOut β :=
  match x with
  | (st, .ok a) => g st a
  | (st, .error e) => (st, .error e)

/-- Raw AsyncStorage.getItem call: rejects per the fault oracle, otherwise
resolves with the stored value (or null). -/
def asyncStorageGetItem (f : FaultSpec) (st : StoreState) (k : String) :
    StOut (Option String) :=
  if f.cacheGetFails k then (st, .error (.backend k)) else (st, .ok (st.cache.get k))

def asyncStorageSetItem (f : FaultSpec) (st : StoreState) (k v : String) : StOut Unit :=
  if f.cacheSetFails k then (st, .error (.backend k))
  else ({ st with cache := st.cache.set k v }, .ok ())

def asyncStorageRemoveItem (f : FaultSpec) (st : StoreState) (k : String) : StOut Unit :=
  if f.cacheRemoveFails k then (st, .error (.backend k))
  else ({ st with cache := st.cache.remove k }, .ok ())

/-- Raw SecureStore.getItemAsync call (web localStorage branch has the same
shape); rejects per the fault oracle. -/
def secureStoreGetItem (f : FaultSpec) (st : StoreState) (k : String) :
    StOut (Option String) :=
  if f.secureGetFails k then (st, .error (.backend k)) else (st, .ok (st.secure.get k))

def secureStoreSetItem (f : FaultSpec) (st : StoreState) (k v : String) : StOut Unit :=
  if f.secureSetFails k then (st, .error (.backend k))
  else ({ st with secure := st.secure.set k v }, .ok ())

def secureStoreRemoveItem (f : FaultSpec) (st : StoreState) (k : String) : StOut Unit :=
  if f.secureRemoveFails k then (st, .error (.backend k))
  else ({ st with secure := st.secure.remove k }, .ok ())

namespace CacheStorageService

/-- cache-storage.ts getItem: try AsyncStorage.getItem; on error, log and
return null (the catch swallows the rejection). -/
def getItem (f : FaultSpec) (st : StoreState) (k : String) : StOut (Option String) :=
  match asyncStorageGetItem f st k with
  | (st1, .ok v) => (st1, .ok v)
  | (st1, .error _) => (st1, .ok none)

/-- cache-storage.ts setItem: try AsyncStorage.setItem; on error, log and
rethrow (the catch propagates the rejection). -/
def setItem (f : FaultSpec) (st : StoreState) (k v : String) : StOut Unit :=
  match asyncStorageSetItem f st k v with
  | (st1, .ok u) => (st1, .ok u)
  | (st1, .error e) => (st1, .error e)

/-- cache-storage.ts removeItem: try AsyncStorage.removeItem; on error, log
and rethrow. -/
def removeItem (f : FaultSpec) (st : StoreState) (k : String) : StOut Unit :=
  match asyncStorageRemoveItem f st k with
  | (st1, .ok u) => (st1, .ok u)
  | (st1, .error e) => (st1, .error e)

end CacheStorageService

namespace SecureStorageService

/-- secure-storage.ts getItem: try SecureStore.getItemAsync (localStorage on
web, identical catch structure); on error, log and return null. -/
def getItem (f : FaultSpec) (st : StoreState) (k : String) : StOut (Option String) :=
  match secureStoreGetItem f st k with
  | (st1, .ok v) => (st1, .ok v)
  | (st1, .error _) => (st1, .ok none)

/-- secure-storage.ts setItem: try SecureStore.setItemAsync; on error, log
and rethrow. -/
def setItem (f : FaultSpec) (st : StoreState) (k v : String) : StOut Unit :=
  match secureStoreSetItem f st k v with
  | (st1, .ok u) => (st1, .ok u)
  | (st1, .error e) => (st1, .error e)

/-- secure-storage.ts removeItem: try SecureStore.deleteItemAsync; on error,
log and rethrow. -/
def removeItem (f : FaultSpec) (st : StoreState) (k : String) : StOut Unit :=
  match secureStoreRemoveItem f st k with
  | (st1, .ok u) => (st1, .ok u)
  | (st1, .error e) => (st1, .error e)

end SecureStorageService

/-- A JSON codec for a value type: stands for the runtime's JSON.stringify and
JSON.parse as used by setObject/getObject.  `parse` returning `none` models
JSON.parse throwing on malformed input (the source catches that and returns
null). -/
structure JsonCodec (α : Type) where
  stringify : α → String
  parse : String → Option α

namespace CacheStorageService

/-- cache-storage.ts setObject: JSON.stringify then setItem; errors rethrown. -/
def setObject (codec : JsonCodec α) (f : FaultSpec) (st : StoreState) (k : String)
    (v : α) : StOut Unit :=
  setItem f st k (codec.stringify v)

/-- cache-storage.ts getObject: getItem, then `jsonValue ? JSON.parse(jsonValue)
: null`; a falsy stored value (null or the empty string) yields null, and a
JSON.parse exception is caught and yields null. -/
def getObject (codec : JsonCodec α) (f : FaultSpec) (st : StoreState) (k : String) :
    StOut (Option α) :=
  match getItem f st k with
  | (st1, .ok none) => (st1, .ok none)
  | (st1, .ok (some s)) =>
      if s = "" then (st1, .ok none) else (st1, .ok (codec.parse s))
  | (st1, .error _) => (st1, .ok none)

end CacheStorageService

namespace SecureStorageService

/-- secure-storage.ts setObject: JSON.stringify then setItem; errors rethrown. -/
def setObject (codec : JsonCodec α) (f : FaultSpec) (st : StoreState) (k : String)
    (v : α) : StOut Unit :=
  setItem f st k (codec.stringify v)

/-- secure-storage.ts getObject: getItem, then `jsonValue ? JSON.parse(jsonValue)
: null`; a falsy stored value (null or the empty string) yields null, and a
JSON.parse exception is caught and yields null. -/
def getObject (codec : JsonCodec α) (f : FaultSpec) (st : StoreState) (k : String) :
    StOut (Option α) :=
  match getItem f st k with
  | (st1, .ok none) => (st1, .ok none)
  | (st1, .ok (some s)) =>
      if s = "" then (st1, .ok none) else (st1, .ok (codec.parse s))
  | (st1, .error _) => (st1, .ok none)

end SecureStorageService

/- Storage keys from storage-keys.ts: `createKey` prefixes each name with
STORAGE_PREFIX = "@ExpoTemplate:" (app-config.ts). -/
namespace STORAGE_KEYS

def AUTH_TOKEN : String := "@ExpoTemplate:auth_token"

def REFRESH_TOKEN : String := "@ExpoTemplate:refresh_token"

def TOKEN_EXPIRE_TIME : String := "@ExpoTemplate:token_expire_time"

def USER_INFO : String := "@ExpoTemplate:user_info"

end STORAGE_KEYS

/-- JavaScript parseInt(s, 10): skip leading whitespace, optional sign, then
the maximal run of decimal digits; `none` models NaN (no digit found). -/
def jsParseInt10 (s : String) : Option Int :=
  let digitsVal : List Char → Option Nat := fun cs =>
    let ds := cs.takeWhile (fun c => c.isDigit)
    if ds.isEmpty then none
    else some (ds.foldl (fun a c => a * 10 + (c.toNat - 48)) 0)
  match s.data.dropWhile (fun c => c.isWhitespace) with
  | '-' :: rest => (digitsVal rest).map (fun n => -(n : Int))
  | '+' :: rest => (digitsVal rest).map (fun n => (n : Int))
  | cs => (digitsVal cs).map (fun n => (n : Int))

/-- Token payload returned by login/register/refresh endpoints (auth types).
`refreshToken` and `expiresIn` are optional fields. -/
structure TokenInfo where
  accessToken : String
  refreshToken : Option String
  expiresIn : Option Int
deriving DecidableEq

structure User where
  id : String
  username : String
deriving DecidableEq

namespace AuthStorage

/-- auth-storage.ts saveToken: secure-set the access token; secure-set the
refresh token only when truthy (present and nonempty); cache-set the expiry
`Date.now() + expiresIn * 1000` as a decimal string only when expiresIn is
truthy (present and nonzero).  Any storage error is logged and rethrown. -/
def saveToken (f : FaultSpec) (st : StoreState) (now : Int) (tok : TokenInfo) :
    StOut Unit :=
  StOut.bind (SecureStorageService.setItem f st STORAGE_KEYS.AUTH_TOKEN tok.accessToken)
    (fun st1 _ =>
      StOut.bind
        (match tok.refreshToken with
         | some rt =>
             if rt = "" then (st1, .ok ())
             else SecureStorageService.setItem f st1 STORAGE_KEYS.REFRESH_TOKEN rt
         | none => (st1, .ok ()))
        (fun st2 _ =>
          match tok.expiresIn with
          | some e =>
              if e = 0 then (st2, .ok ())
              else CacheStorageService.setItem f st2 STORAGE_KEYS.TOKEN_EXPIRE_TIME
                (toString (now + e * 1000))
          | none => (st2, .ok ())))

/-- auth-storage.ts getAccessToken: try the secure read; on error return null. -/
def getAccessToken (f : FaultSpec) (st : StoreState) : StOut (Option String) :=
  match SecureStorageService.getItem f st STORAGE_KEYS.AUTH_TOKEN with
  | (st1, .ok v) => (st1, .ok v)
  | (st1, .error _) => (st1, .ok none)

/-- auth-storage.ts getRefreshToken: try the secure read; on error return null. -/
def getRefreshToken (f : FaultSpec) (st : StoreState) : StOut (Option String) :=
  match SecureStorageService.getItem f st STORAGE_KEYS.REFRESH_TOKEN with
  | (st1, .ok v) => (st1, .ok v)
  | (st1, .error _) => (st1, .ok none)

/-- auth-storage.ts isTokenExpired: read the stored expiry string; a falsy
read (null or empty string) means not expired; otherwise parseInt it and
report `now >= expireTime - bufferTime` with a 5-minute buffer.  A NaN parse
makes the comparison false; any thrown error is caught and yields false. -/
def isTokenExpired (f : FaultSpec) (st : StoreState) (now : Int) : StOut Bool :=
  match CacheStorageService.getItem f st STORAGE_KEYS.TOKEN_EXPIRE_TIME with
  | (st1, .ok none) => (st1, .ok false)
  | (st1, .ok (some s)) =>
      if s = "" then (st1, .ok false)
      else
        match jsParseInt10 s with
        | none => (st1, .ok false)
        | some expireTime => (st1, .ok (decide (now ≥ expireTime - 5 * 60 * 1000)))
  | (st1, .error _) => (st1, .ok false)

/-- auth-storage.ts clearToken: remove the two secure token keys and the
cached expiry, sequentially; errors rethrown. -/
def clearToken (f : FaultSpec) (st : StoreState) : StOut Unit :=
  StOut.bind (SecureStorageService.removeItem f st STORAGE_KEYS.AUTH_TOKEN)
    (fun st1 _ =>
      StOut.bind (SecureStorageService.removeItem f st1 STORAGE_KEYS.REFRESH_TOKEN)
        (fun st2 _ =>
          CacheStorageService.removeItem f st2 STORAGE_KEYS.TOKEN_EXPIRE_TIME))

/-- auth-storage.ts saveUser: setObject of the user record; errors rethrown. -/
def saveUser (codec : JsonCodec User) (f : FaultSpec) (st : StoreState) (u : User) :
    StOut Unit :=
  CacheStorageService.setObject codec f st STORAGE_KEYS.USER_INFO u

/-- auth-storage.ts getUser: try getObject; on error return null (getObject
itself already degrades every failure to null). -/
def getUser (codec : JsonCodec User) (f : FaultSpec) (st : StoreState) :
    StOut (Option User) :=
  match CacheStorageService.getObject codec f st STORAGE_KEYS.USER_INFO with
  | (st1, .ok v) => (st1, .ok v)
  | (st1, .error _) => (st1, .ok none)

/-- auth-storage.ts clearUser: remove the cached user record; errors rethrown. -/
def clearUser (f : FaultSpec) (st : StoreState) : StOut Unit :=
  CacheStorageService.removeItem f st STORAGE_KEYS.USER_INFO

/-- auth-storage.ts clearAll: Promise.all of clearToken and clearUser.  Both
removal chains run to completion or to their own first failure regardless of
the other branch; the combined call rejects when either branch rejected.  The
two branches touch disjoint keys, so running clearUser on the state left by
clearToken is the interleaving-independent result. -/
def clearAll (f : FaultSpec) (st : StoreState) : StOut Unit :=
  match clearToken f st with
  | (st1, r1) =>
      match clearUser f st1 with
      | (st2, r2) =>
          (st2, match r1 with | .error e => .error e | .ok _ => r2)

end AuthStorage

/-- NetworkErrorType taxonomy (network/types.ts: TIMEOUT, NO_NETWORK,
SERVER_ERROR, CLIENT_ERROR, UNAUTHORIZED, FORBIDDEN, NOT_FOUND, CANCEL,
UNKNOWN). -/
inductive NetworkErrorType where
  | timeout
  | noNetwork
  | serverError
  | clientError
  | unauthorized
  | forbidden
  | notFound
  | cancel
  | unknown
deriving DecidableEq, BEq

/-- NetworkError (network/types.ts): classification type and the optional
HTTP status.  The human-readable message and the opaque originalError field
are not modelled — no claim mentions them. -/
structure NetworkError where
  type : NetworkErrorType
  code : Option Nat
deriving DecidableEq

/-- Whether the character list `pat` occurs contiguously inside the second
list. -/
def charsInfix (pat : List Char) : List Char → Bool
  | [] => pat.isEmpty
  | c :: rest => pat.isPrefixOf (c :: rest) || charsInfix pat rest

/-- JavaScript String.prototype.includes, used by the classifier. -/
def strIncludes (s pat : String) : Bool :=
  charsInfix pat.data s.data

/-- The observable shape of an AxiosError as read by error-handler.ts:
`response` is the HTTP status when a response arrived, `code` the axios error
code string, `message` the error message. -/
structure AxiosErrorShape where
  response : Option Nat
  code : Option String
  message : String
deriving DecidableEq

/-- error-handler.ts getErrorType (the file is bundled inside
src/src/core/config/api-config.ts after a related-doc separator): without a
response, code ECONNABORTED or a message containing "timeout" is TIMEOUT,
code ERR_NETWORK or a message containing "Network Error" is NO_NETWORK, a
message containing "cancel" is CANCEL, anything else UNKNOWN; with a
response, 401 is UNAUTHORIZED, 403 FORBIDDEN, 404 NOT_FOUND, other 4xx
CLIENT_ERROR, 5xx SERVER_ERROR, and a sub-400 status UNKNOWN. -/
def getErrorType (e : AxiosErrorShape) : NetworkErrorType :=
  match e.response with
  | none =>
      if e.code == some "ECONNABORTED" || strIncludes e.message "timeout" then .timeout
      else if e.code == some "ERR_NETWORK" || strIncludes e.message "Network Error" then
        .noNetwork
      else if strIncludes e.message "cancel" then .cancel
      else .unknown
  | some status =>
      if status = 401 then .unauthorized
      else if status = 403 then .forbidden
      else if status = 404 then .notFound
      else if 400 ≤ status ∧ status < 500 then .clientError
      else if 500 ≤ status then .serverError
      else .unknown

/-- The shapes of a value reaching error-handler.ts handleNetworkError: a
value already carrying truthy type and message fields (an earlier-classified
NetworkError), a value that is not an AxiosError, or an AxiosError. -/
inductive RawError where
  | networkError (e : NetworkError)
  | notAxios
  | axios (e : AxiosErrorShape)
deriving DecidableEq

/-- error-handler.ts handleNetworkError (bundled inside api-config.ts): an
already-classified NetworkError is returned unchanged; a non-axios error
becomes UNKNOWN with no status; an AxiosError is classified by getErrorType
with the response status as its code. -/
def handleNetworkError : RawError → NetworkError
  | .networkError e => e
  | .notAxios => ⟨.unknown, none⟩
  | .axios e => ⟨getErrorType e, e.response⟩

/-- error-handler.ts shouldReLogin (bundled inside api-config.ts):
`error.type === NetworkErrorType.UNAUTHORIZED`. -/
def shouldReLogin (e : NetworkError) : Bool :=
  e.type == .unauthorized

/-- An error escaping an AuthService method: the business error thrown when no
refresh token is stored, a rethrown storage error, or a NetworkError from the
request pipeline.  It is also the rejection type of the registered logout
handler (authService.logout). -/
inductive AuthError where
  | noRefreshToken
  | storage (e : StorageError)
  | network (e : NetworkError)
deriving DecidableEq

/-- Server envelope on every response body (network/types.ts ApiResponse):
code, message, data.  `code = none` models an undefined code field. -/
structure ApiResponse (α : Type) where
  code : Option Int
  message : String
  data : α
deriving DecidableEq

/-- interceptors.ts success branch: a defined business code other than the
success sentinels 0 and 200 is logged as a warning; the response is returned
unchanged either way. -/
def businessCodeWarned (resp : ApiResponse α) : Bool :=
  match resp.code with
  | some c => decide (c ≠ 0 ∧ c ≠ 200)
  | none => false

/-- Outcome of one full pipeline run: resolved data, a classified rejection,
the logout handler's own rejection (which replaces the classified one when
`await logoutHandler()` inside the catch rejects), or fuel exhaustion (the
source can recurse without bound; the embedding makes the potential
divergence explicit). -/
inductive PipelineResult (α : Type) where
  | ok (data : α)
  | err (e : NetworkError)
  | errLogout (e : AuthError)
  | outOfFuel
deriving DecidableEq

/-- Observable side effects of one pipeline run. -/
structure RunStats where
  refreshCalls : Nat
  logoutCalls : Nat
  transportCalls : Nat
  businessWarnings : Nat
deriving DecidableEq

/-- interceptors.ts setupResponseInterceptor + http-client.ts request, as one
fueled run.  `transport k` is the transport outcome of the k-th dispatch of
this logical request; `refreshOk k` is whether the registered tokenRefresher
resolves when invoked after the k-th dispatch; `logoutOutcome k` is the
outcome of the registered logout handler when invoked after the k-th
dispatch.

On a fulfilled response the business code is checked (warning only) and
`response.data.data` is returned.  On a rejected response the error is
classified; for a classified 401 with a registered refresher the refresher is
awaited, and on its success the source executes `return axios.request(error.config)`
— the retry re-enters the same axios instance and hence this same interceptor
chain, which the recursive call models; no flag marks the config as already
retried.  A failed refresher is caught: the logout handler is awaited when
registered, and if that await itself rejects, its rejection escapes the catch
and replaces the classified one (the trailing
`return Promise.reject(networkError)` never runs); otherwise the call rejects
with the classified NetworkError.  The returned retry promise is not awaited
inside the try, so a retry rejection propagates to the caller without
touching this catch. -/
def runRequest (transport : Nat → Except AxiosErrorShape (ApiResponse α))
    (refreshOk : Nat → Bool) (logoutOutcome : Nat → Except AuthError Unit)
    (hasRefresher hasLogoutHandler : Bool) :
    Nat → Nat → PipelineResult α × RunStats
  | 0, _ => (.outOfFuel, ⟨0, 0, 0, 0⟩)
  | fuel + 1, k =>
      match transport k with
      | .ok resp =>
          (.ok resp.data, ⟨0, 0, 1, if businessCodeWarned resp then 1 else 0⟩)
      | .error e =>
          let networkError := handleNetworkError (.axios e)
          if shouldReLogin networkError then
            if hasRefresher then
              if refreshOk k then
                match runRequest transport refreshOk logoutOutcome hasRefresher
                    hasLogoutHandler fuel (k + 1) with
                | (r, s) =>
                    (r, ⟨s.refreshCalls + 1, s.logoutCalls, s.transportCalls + 1,
                         s.businessWarnings⟩)
              else
                if hasLogoutHandler then
                  match logoutOutcome k with
                  | .ok _ => (.err networkError, ⟨1, 1, 1, 0⟩)
                  | .error le => (.errLogout le, ⟨1, 1, 1, 0⟩)
                else (.err networkError, ⟨1, 0, 1, 0⟩)
            else (.err networkError, ⟨0, 0, 1, 0⟩)
          else (.err networkError, ⟨0, 0, 1, 0⟩)

structure LoginResponse where
  user : User
  token : TokenInfo
deriving DecidableEq

namespace AuthService

/-- auth-service.ts refreshToken.  `endpoint` is the outcome of the
refresh-token POST through the pipeline (issued only when a stored refresh
token is found).  Body: read the refresh token (a best-effort read that never
throws); a falsy value throws "No refresh token available"; otherwise POST and
saveToken the response.  `refreshCatch` is the catch block: it clears all auth
data and rethrows the caught error `err` — when clearAll itself rejects, that
rejection replaces the original error.  The second component of refreshToken
reports whether the refresh endpoint was called. -/
def refreshCatch (f : FaultSpec) (st1 : StoreState) (err : AuthError) :
    StoreState × Except AuthError Unit :=
  match AuthStorage.clearAll f st1 with
  | (st2, .ok _) => (st2, .error err)
  | (st2, .error e2) => (st2, .error (.storage e2))

def refreshToken (f : FaultSpec) (st : StoreState) (now : Int)
    (endpoint : Except NetworkError TokenInfo) :
    (StoreState × Except AuthError Unit) × Bool :=
  match AuthStorage.getRefreshToken f st with
  | (st1, .ok rt) =>
      match rt with
      | none => (refreshCatch f st1 .noRefreshToken, false)
      | some rtok =>
          if rtok = "" then (refreshCatch f st1 .noRefreshToken, false)
          else
            match endpoint with
            | .error ne => (refreshCatch f st1 (.network ne), true)
            | .ok tok =>
                match AuthStorage.saveToken f st1 now tok with
                | (st2, .ok _) => ((st2, .ok ()), true)
                | (st2, .error e) => (refreshCatch f st2 (.storage e), true)
  | (st1, .error e) => (refreshCatch f st1 (.storage e), false)

/-- auth-service.ts logout.  `logoutApi` is the outcome of the best-effort
POST to the logout endpoint; its inner try/catch logs a warning on failure and
continues either way.  Then clearAll runs unconditionally; only a clearAll
rejection reaches the outer catch, which rethrows. -/
def logout (f : FaultSpec) (st : StoreState) (logoutApi : Except NetworkError Unit) :
    StoreState × Except AuthError Unit :=
  let _swallowed : Unit :=
    match logoutApi with
    | .ok _ => ()
    | .error _ => ()
  match AuthStorage.clearAll f st with
  | (st1, .ok _) => (st1, .ok ())
  | (st1, .error e) => (st1, .error (.storage e))

/-- auth-service.ts checkAuth.  Read the access token (falsy, i.e. absent or
empty, gives false); if the token is expired, try refreshToken and return true
on success, false on its failure; otherwise true.  The outer catch converts
any other exception to false, so the method never throws. -/
def checkAuth (f : FaultSpec) (st : StoreState) (now : Int)
    (endpoint : Except NetworkError TokenInfo) : StoreState × Bool :=
  match AuthStorage.getAccessToken f st with
  | (st1, .ok none) => (st1, false)
  | (st1, .ok (some t)) =>
      if t = "" then (st1, false)
      else
        match AuthStorage.isTokenExpired f st1 now with
        | (st2, .ok true) =>
            match refreshToken f st2 now endpoint with
            | ((st3, .ok _), _) => (st3, true)
            | ((st3, .error _), _) => (st3, false)
        | (st2, .ok false) => (st2, true)
        | (st2, .error _) => (st2, false)
  | (st1, .error _) => (st1, false)

/-- auth-service.ts login.  `resp` is the outcome of the POST to the login
endpoint through the pipeline.  On success saveToken then saveUser, returning
the user; any error is logged, tracked and rethrown. -/
def login (codec : JsonCodec User) (f : FaultSpec) (st : StoreState) (now : Int)
    (resp : Except NetworkError LoginResponse) : StoreState × Except AuthError User :=
  match resp with
  | .error e => (st, .error (.network e))
  | .ok r =>
      match AuthStorage.saveToken f st now r.token with
      | (st1, .error e) => (st1, .error (.storage e))
      | (st1, .ok _) =>
          match AuthStorage.saveUser codec f st1 r.user with
          | (st2, .error e) => (st2, .error (.storage e))
          | (st2, .ok _) => (st2, .ok r.user)

end AuthService

/-- AuthStatus from auth types: idle, loading, authenticated, unauthenticated. -/
inductive AuthStatus where
  | idle
  | loading
  | authenticated
  | unauthenticated
deriving DecidableEq

/-- The AuthProvider's React state triple (status, user, token). -/
structure SessionState where
  status : AuthStatus
  user : Option User
  token : Option String
deriving DecidableEq

namespace AuthProvider

/-- auth-context.tsx initAuth.  Status is set to loading, the stored token and
user are read (best-effort reads), and:
  - both truthy: checkAuth; on true restore the saved user/token and set
    authenticated; on false clearAll and set unauthenticated (a clearAll
    rejection falls into the outer catch, which also sets unauthenticated);
  - otherwise set unauthenticated directly.
`sess0` is the provider state before the run; branches that only set status
leave the other two fields as they were. -/
def initAuth (codec : JsonCodec User) (f : FaultSpec) (st : StoreState) (now : Int)
    (endpoint : Except NetworkError TokenInfo) (sess0 : SessionState) :
    SessionState × StoreState :=
  match AuthStorage.getAccessToken f st with
  | (st1, savedTokenR) =>
      match AuthStorage.getUser codec f st1 with
      | (st2, savedUserR) =>
          let savedToken : Option String :=
            match savedTokenR with | .ok v => v | .error _ => none
          let savedUser : Option User :=
            match savedUserR with | .ok v => v | .error _ => none
          match savedToken, savedUser with
          | some t, some u =>
              if t = "" then ({ sess0 with status := .unauthenticated }, st2)
              else
                match AuthService.checkAuth f st2 now endpoint with
                | (st3, true) =>
                    (⟨.authenticated, some u, some t⟩, st3)
                | (st3, false) =>
                    match AuthStorage.clearAll f st3 with
                    | (st4, _) => ({ sess0 with status := .unauthenticated }, st4)
          | _, _ => ({ sess0 with status := .unauthenticated }, st2)

/-- auth-context.tsx login.  Status is set to loading, authService.login runs,
and on success the token is re-read from storage and the provider state
becomes authenticated with the returned user and that token; on failure the
status is set to unauthenticated (user/token fields untouched) and the error
rethrown. -/
def login (codec : JsonCodec User) (f : FaultSpec) (st : StoreState) (now : Int)
    (resp : Except NetworkError LoginResponse) (sess0 : SessionState) :
    (SessionState × StoreState) × Except AuthError Unit :=
  match AuthService.login codec f st now resp with
  | (st1, .ok u) =>
      match AuthStorage.getAccessToken f st1 with
      | (st2, newTokenR) =>
          let newToken : Option String :=
            match newTokenR with | .ok v => v | .error _ => none
          ((⟨.authenticated, some u, newToken⟩, st2), .ok ())
  | (st1, .error e) =>
      (({ sess0 with status := .unauthenticated }, st1), .error e)

end AuthProvider

/-- All four Credential Store entries are absent: the state `clearAll` is
meant to reach. -/
def clearedAuthData (st : StoreState) : Prop :=
  st.secure.get STORAGE_KEYS.AUTH_TOKEN = none ∧
  st.secure.get STORAGE_KEYS.REFRESH_TOKEN = none ∧
  st.cache.get STORAGE_KEYS.TOKEN_EXPIRE_TIME = none ∧
  st.cache.get STORAGE_KEYS.USER_INFO = none

/-- No removal operation faults, in either partition. -/
def NoRemoveFaults (f : FaultSpec) : Prop :=
  ∀ k, f.cacheRemoveFails k = false ∧ f.secureRemoveFails k = false

/-- A concrete User codec for concrete instantiations: serializes any user to
a fixed tag that parses back to the one user it is used with. -/
def userCodecTriv : JsonCodec User :=
  ⟨fun _ => "user-json", fun s => if s = "user-json" then some ⟨"1", "alice"⟩ else none⟩

/-- Transport oracle answering 401 on the first two dispatches of a request
and a success envelope on the third. -/
def cexTransport : Nat → Except AxiosErrorShape (ApiResponse Nat) :=
  fun k =>
    if k < 2 then .error ⟨some 401, none, "Request failed with status code 401"⟩
    else .ok ⟨some 0, "ok", 7⟩

/-- The 401 transport failure used by the concrete pipeline runs. -/
def cex401 : AxiosErrorShape :=
  ⟨some 401, none, "Request failed with status code 401"⟩

/-- The login scenario of the spec: credentials answered by
user `{id:"1", username:"alice"}` and token
`{accessToken:"A1", refreshToken:"R1", expiresIn:3600}`, run through
AuthProvider.login with a fault-free store. -/
def loginScenario (codec : JsonCodec User) (st : StoreState) (now : Int)
    (sess0 : SessionState) : (SessionState × StoreState) × Except AuthError Unit :=
  AuthProvider.login codec noFaults st now
    (.ok ⟨⟨"1", "alice"⟩, ⟨"A1", some "R1", some 3600⟩⟩) sess0

theorem KV.get_set (kv : KV) (k v k2 : String) :
    (kv.set k v).get k2 = if k2 = k then some v else kv.get k2 := by
  by_cases h : k2 = k
  · subst h
    simp [KV.get, KV.set, List.find?]
  · have hbeq : (k == k2) = false := by
      simp [beq_iff_eq]
      exact fun he => h he.symm
    simp only [KV.get, KV.set, List.find?, hbeq, if_neg h]
    congr 1
    induction kv.data with
    | nil => rfl
    | cons a l ih =>
      by_cases ha : a.1 = k
      · have h1 : (a.1 != k) = false := by simp [bne, ha]
        have h2 : (a.1 == k2) = false := by
          simp [beq_iff_eq, ha]
          exact fun he => h he.symm
        simp [List.filter, List.find?, h1, h2, ih]
      · have h1 : (a.1 != k) = true := by simp [bne, beq_iff_eq, ha]
        simp only [List.filter, h1, List.find?]
        cases hfind : (a.1 == k2) <;> simp [hfind, ih]

theorem KV.get_remove (kv : KV) (k k2 : String) :
    (kv.remove k).get k2 = if k2 = k then none else kv.get k2 := by
  by_cases h : k2 = k
  · subst h
    simp only [KV.get, KV.remove, if_pos rfl]
    rw [List.find?_eq_none.mpr]
    · rfl
    · intro x hx
      have := List.of_mem_filter hx
      simp [bne, beq_iff_eq] at this ⊢
      exact this
  · simp only [KV.get, KV.remove, if_neg h]
    congr 1
    induction kv.data with
    | nil => rfl
    | cons a l ih =>
      by_cases ha : a.1 = k
      · have h1 : (a.1 != k) = false := by simp [bne, ha]
        have h2 : (a.1 == k2) = false := by
          simp [beq_iff_eq, ha]
          exact fun he => h he.symm
        simp [List.filter, List.find?, h1, h2, ih]
      · have h1 : (a.1 != k) = true := by simp [bne, beq_iff_eq, ha]
        simp only [List.filter, h1, List.find?]
        cases hfind : (a.1 == k2) <;> simp [hfind, ih]

theorem getAccessToken_eq (f : FaultSpec) (st : StoreState) :
    AuthStorage.getAccessToken f st =
      (st, .ok (if f.secureGetFails STORAGE_KEYS.AUTH_TOKEN = true then none
                else st.secure.get STORAGE_KEYS.AUTH_TOKEN)) := by
  unfold AuthStorage.getAccessToken SecureStorageService.getItem secureStoreGetItem
  cases hf : f.secureGetFails STORAGE_KEYS.AUTH_TOKEN <;> simp [hf]

theorem getRefreshToken_eq (f : FaultSpec) (st : StoreState) :
    AuthStorage.getRefreshToken f st =
      (st, .ok (if f.secureGetFails STORAGE_KEYS.REFRESH_TOKEN = true then none
                else st.secure.get STORAGE_KEYS.REFRESH_TOKEN)) := by
  unfold AuthStorage.getRefreshToken SecureStorageService.getItem secureStoreGetItem
  cases hf : f.secureGetFails STORAGE_KEYS.REFRESH_TOKEN <;> simp [hf]

theorem getUser_eq (codec : JsonCodec User) (f : FaultSpec) (st : StoreState) :
    ∃ v, AuthStorage.getUser codec f st = (st, .ok v) := by
  unfold AuthStorage.getUser CacheStorageService.getObject CacheStorageService.getItem
    asyncStorageGetItem
  cases hf : f.cacheGetFails STORAGE_KEYS.USER_INFO with
  | true => exact ⟨none, by simp [hf]⟩
  | false =>
      cases hget : st.cache.get STORAGE_KEYS.USER_INFO with
      | none => exact ⟨none, by simp [hf, hget]⟩
      | some s =>
          by_cases hs : s = ""
          · exact ⟨none, by simp [hf, hget, hs]⟩
          · exact ⟨codec.parse s, by simp [hf, hget, hs]⟩

theorem isTokenExpired_ok (f : FaultSpec) (st : StoreState) (now : Int) :
    ∃ b, AuthStorage.isTokenExpired f st now = (st, .ok b) := by
  unfold AuthStorage.isTokenExpired CacheStorageService.getItem asyncStorageGetItem
  cases hf : f.cacheGetFails STORAGE_KEYS.TOKEN_EXPIRE_TIME with
  | true => exact ⟨false, by simp [hf]⟩
  | false =>
      cases hget : st.cache.get STORAGE_KEYS.TOKEN_EXPIRE_TIME with
      | none => exact ⟨false, by simp [hf, hget]⟩
      | some s =>
          by_cases hs : s = ""
          · exact ⟨false, by simp [hf, hget, hs]⟩
          · cases hp : jsParseInt10 s with
            | none => exact ⟨false, by simp [hf, hget, hs, hp]⟩
            | some e =>
                exact ⟨decide (now ≥ e - 5 * 60 * 1000), by simp [hf, hget, hs, hp]⟩

theorem clearAll_noRemoveFaults (f : FaultSpec) (st : StoreState) (h : NoRemoveFaults f) :
    AuthStorage.clearAll f st =
      (⟨(st.secure.remove STORAGE_KEYS.AUTH_TOKEN).remove STORAGE_KEYS.REFRESH_TOKEN,
        (st.cache.remove STORAGE_KEYS.TOKEN_EXPIRE_TIME).remove STORAGE_KEYS.USER_INFO⟩,
       .ok ()) := by
  have h1 := (h STORAGE_KEYS.AUTH_TOKEN).2
  have h2 := (h STORAGE_KEYS.REFRESH_TOKEN).2
  have h3 := (h STORAGE_KEYS.TOKEN_EXPIRE_TIME).1
  have h4 := (h STORAGE_KEYS.USER_INFO).1
  simp [AuthStorage.clearAll, AuthStorage.clearToken, AuthStorage.clearUser,
    SecureStorageService.removeItem, CacheStorageService.removeItem,
    secureStoreRemoveItem, asyncStorageRemoveItem, StOut.bind, h1, h2, h3, h4]

theorem clearAll_clears (f : FaultSpec) (st : StoreState) (h : NoRemoveFaults f) :
    clearedAuthData (AuthStorage.clearAll f st).1 ∧ (AuthStorage.clearAll f st).2 = .ok () := by
  rw [clearAll_noRemoveFaults f st h]
  have hne1 : STORAGE_KEYS.AUTH_TOKEN ≠ STORAGE_KEYS.REFRESH_TOKEN := by decide
  have hne2 : STORAGE_KEYS.TOKEN_EXPIRE_TIME ≠ STORAGE_KEYS.USER_INFO := by decide
  refine ⟨⟨?_, ?_, ?_, ?_⟩, rfl⟩
  · rw [KV.get_remove, if_neg hne1, KV.get_remove, if_pos rfl]
  · rw [KV.get_remove, if_pos rfl]
  · rw [KV.get_remove, if_neg hne2, KV.get_remove, if_pos rfl]
  · rw [KV.get_remove, if_pos rfl]

theorem refreshCatch_eq (f : FaultSpec) (st1 : StoreState) (err : AuthError)
    (h : NoRemoveFaults f) :
    AuthService.refreshCatch f st1 err = ((AuthStorage.clearAll f st1).1, .error err)
    ∧ clearedAuthData (AuthService.refreshCatch f st1 err).1 := by
  have hca := clearAll_clears f st1 h
  have heq : AuthService.refreshCatch f st1 err =
      ((AuthStorage.clearAll f st1).1, .error err) := by
    unfold AuthService.refreshCatch
    cases hc : AuthStorage.clearAll f st1 with
    | mk st2 r =>
        have : r = .ok () := by
          have := hca.2
          rw [hc] at this
          exact this
        subst this
        rfl
  refine ⟨heq, ?_⟩
  rw [heq]
  exact hca.1

theorem refreshToken_eq (f : FaultSpec) (st : StoreState) (now : Int)
    (endpoint : Except NetworkError TokenInfo) :
    AuthService.refreshToken f st now endpoint =
      match (if f.secureGetFails STORAGE_KEYS.REFRESH_TOKEN = true then none
             else st.secure.get STORAGE_KEYS.REFRESH_TOKEN) with
      | none => (AuthService.refreshCatch f st .noRefreshToken, false)
      | some rtok =>
          if rtok = "" then (AuthService.refreshCatch f st .noRefreshToken, false)
          else
            match endpoint with
            | .error ne => (AuthService.refreshCatch f st (.network ne), true)
            | .ok tok =>
                match AuthStorage.saveToken f st now tok with
                | (st2, .ok _) => ((st2, .ok ()), true)
                | (st2, .error e) => (AuthService.refreshCatch f st2 (.storage e), true) := by
  unfold AuthService.refreshToken
  rw [getRefreshToken_eq]

theorem runRequest_refreshCalls_le {α : Type}
    (transport : Nat → Except AxiosErrorShape (ApiResponse α)) (refreshOk : Nat → Bool)
    (lo : Nat → Except AuthError Unit) (hr hl : Bool) :
    ∀ fuel k, (runRequest transport refreshOk lo hr hl fuel k).2.refreshCalls ≤ fuel := by
  intro fuel
  induction fuel with
  | zero => intro k; simp [runRequest]
  | succ n ih =>
      intro k
      unfold runRequest
      cases ht : transport k with
      | ok resp => simp
      | error e =>
          simp only
          split
          · split
            · split
              · cases hrec : runRequest transport refreshOk lo hr hl n (k + 1) with
                | mk r s =>
                    have := ih (k + 1)
                    rw [hrec] at this
                    simpa using Nat.succ_le_succ this
              · split
                · split <;> simp
                · simp
            · simp
          · simp

/-- C1 counterexample: against the claim that the pipeline invokes the refresh
function at most once per request and that a replay answering 401 is surfaced
as a plain failure, a request whose first two dispatches answer 401 while
refresh keeps succeeding triggers TWO refresh invocations (one per 401), and
the second replay resolves successfully instead of the first replay's 401
being surfaced — `axios.request(error.config)` re-enters the interceptor
chain and no one-shot retry flag exists. -/
theorem C1_counterexample :
    ¬ ((runRequest cexTransport (fun _ => true) (fun _ => .ok ()) true true
          5 0).2.refreshCalls ≤ 1)
    ∧ (runRequest cexTransport (fun _ => true) (fun _ => .ok ()) true true
        5 0).2.refreshCalls = 2
    ∧ (runRequest cexTransport (fun _ => true) (fun _ => .ok ()) true true
        5 0).1 = .ok 7 := by
  decide

/-- C1 (amended): for every request whose transport failure is classified
UNAUTHORIZED, with a refresh function registered, the pipeline invokes the
refresh function once for that failure; if the refresh fails it invokes the
session-termination callback when one is registered and rejects with the
classified UNAUTHORIZED NetworkError — unless that callback itself rejects,
in which case its rejection replaces the classified one; if the refresh
succeeds it replays the original request through the full pipeline, so a
replay that itself fails with 401 triggers refresh-and-replay again — retries
are bounded only by the run's fuel (the source has no one-shot retry flag and
can loop while refreshes keep succeeding), with at most one refresh
invocation per dispatched attempt. -/
theorem C1_amended_refresh_per_replay {α : Type}
    (transport : Nat → Except AxiosErrorShape (ApiResponse α)) (refreshOk : Nat → Bool)
    (lo : Nat → Except AuthError Unit) (hl : Bool) (fuel k : Nat) (e : AxiosErrorShape)
    (ht : transport k = .error e)
    (hcls : shouldReLogin (handleNetworkError (.axios e)) = true) :
    (refreshOk k = false → hl = true → lo k = .ok () →
      runRequest transport refreshOk lo true hl (fuel + 1) k =
        (.err (handleNetworkError (.axios e)), ⟨1, 1, 1, 0⟩))
    ∧ (∀ le, refreshOk k = false → hl = true → lo k = .error le →
        runRequest transport refreshOk lo true hl (fuel + 1) k =
          (.errLogout le, ⟨1, 1, 1, 0⟩))
    ∧ (refreshOk k = false → hl = false →
        runRequest transport refreshOk lo true hl (fuel + 1) k =
          (.err (handleNetworkError (.axios e)), ⟨1, 0, 1, 0⟩))
    ∧ (refreshOk k = true →
        (runRequest transport refreshOk lo true hl (fuel + 1) k).1 =
          (runRequest transport refreshOk lo true hl fuel (k + 1)).1
        ∧ (runRequest transport refreshOk lo true hl (fuel + 1) k).2.refreshCalls =
            (runRequest transport refreshOk lo true hl fuel (k + 1)).2.refreshCalls + 1)
    ∧ (runRequest transport refreshOk lo true hl (fuel + 1) k).2.refreshCalls ≤ fuel + 1 := by
  refine ⟨?_, ?_, ?_, ?_, ?_⟩
  · intro hro hhl hlo
    unfold runRequest
    rw [ht]
    simp [hcls, hro, hhl, hlo]
  · intro le hro hhl hlo
    unfold runRequest
    rw [ht]
    simp [hcls, hro, hhl, hlo]
  · intro hro hhl
    unfold runRequest
    rw [ht]
    simp [hcls, hro, hhl]
  · intro hro
    cases hrec : runRequest transport refreshOk lo true hl fuel (k + 1) with
    | mk r s =>
        have hstep : runRequest transport refreshOk lo true hl (fuel + 1) k =
            (r, ⟨s.refreshCalls + 1, s.logoutCalls, s.transportCalls + 1,
                 s.businessWarnings⟩) := by
          unfold runRequest
          rw [ht]
          simp [hcls, hro, hrec]
        rw [hstep]
        exact ⟨rfl, rfl⟩

  · exact runRequest_refreshCalls_le transport refreshOk lo true hl (fuel + 1) k

/-- C1 amended witness: the transport answering 401 on the first dispatch with
a succeeding refresh replays through the full pipeline; with a failing
refresh and a resolving logout handler it rejects with the classified
UNAUTHORIZED error; with a failing refresh and a rejecting logout handler the
handler's own rejection replaces the classified one. -/
theorem C1_amended_witness :
    (runRequest cexTransport (fun _ => true) (fun _ => .ok ()) true true
        5 0).2.refreshCalls =
      (runRequest cexTransport (fun _ => true) (fun _ => .ok ()) true true
        4 1).2.refreshCalls + 1
    ∧ runRequest cexTransport (fun _ => false) (fun _ => .ok ()) true true 5 0 =
        (.err ⟨.unauthorized, some 401⟩, ⟨1, 1, 1, 0⟩)
    ∧ runRequest cexTransport (fun _ => false) (fun _ => .error .noRefreshToken)
        true true 5 0 = (.errLogout .noRefreshToken, ⟨1, 1, 1, 0⟩) :=
  ⟨((C1_amended_refresh_per_replay cexTransport (fun _ => true) (fun _ => .ok ())
      true 4 0 cex401 (by decide) (by decide)).2.2.2.1 rfl).2,
   ((C1_amended_refresh_per_replay cexTransport (fun _ => false) (fun _ => .ok ())
      true 4 0 cex401 (by decide) (by decide)).1 rfl rfl rfl).trans (by decide),
   (C1_amended_refresh_per_replay cexTransport (fun _ => false)
      (fun _ => .error .noRefreshToken) true 4 0 cex401 (by decide) (by decide)).2.1
     .noRefreshToken rfl rfl rfl⟩

/-- C2: a fulfilled response whose envelope carries a defined business code
different from both success sentinels 0 and 200 produces a warning log, yet
the call resolves with the envelope's data — a non-success business code is
never converted into a rejection. -/
theorem C2_business_code_warn_not_reject {α : Type}
    (transport : Nat → Except AxiosErrorShape (ApiResponse α)) (refreshOk : Nat → Bool)
    (lo : Nat → Except AuthError Unit) (hr hl : Bool) (fuel k : Nat)
    (resp : ApiResponse α) (c : Int)
    (ht : transport k = .ok resp) (hc : resp.code = some c) (h0 : c ≠ 0) (h200 : c ≠ 200) :
    runRequest transport refreshOk lo hr hl (fuel + 1) k = (.ok resp.data, ⟨0, 0, 1, 1⟩) := by
  unfold runRequest
  rw [ht]
  simp [businessCodeWarned, hc, h0, h200]

/-- C2 witness: a fulfilled envelope with business code 500 resolves with its
data and logs one warning. -/
theorem C2_witness :
    runRequest (fun _ => .ok (⟨some 500, "failed", 7⟩ : ApiResponse Nat))
      (fun _ => true) (fun _ => .ok ()) true true 3 0 = (.ok 7, ⟨0, 0, 1, 1⟩) :=
  C2_business_code_warn_not_reject (fun _ => .ok ⟨some 500, "failed", 7⟩)
    (fun _ => true) (fun _ => .ok ()) true true 2 0 ⟨some 500, "failed", 7⟩ 500 rfl rfl
    (by decide) (by decide)

/-- C3: with a fault-free read, isTokenExpired() on a stored expiry string
denoting timestamp `e` returns exactly `now >= e - 5min` (5*60*1000 ms); when
no expiry record is stored it returns false, and when the expiry read faults
it also returns false — true is never returned without a stored expiry. -/
theorem C3_isTokenExpired_spec (f : FaultSpec) (st : StoreState) (now : Int) :
    ((∀ s e, f.cacheGetFails STORAGE_KEYS.TOKEN_EXPIRE_TIME = false →
        st.cache.get STORAGE_KEYS.TOKEN_EXPIRE_TIME = some s → s ≠ "" →
        jsParseInt10 s = some e →
        AuthStorage.isTokenExpired f st now = (st, .ok (decide (now ≥ e - 5 * 60 * 1000))))
    ∧ (f.cacheGetFails STORAGE_KEYS.TOKEN_EXPIRE_TIME = false →
        st.cache.get STORAGE_KEYS.TOKEN_EXPIRE_TIME = none →
        AuthStorage.isTokenExpired f st now = (st, .ok false))
    ∧ (f.cacheGetFails STORAGE_KEYS.TOKEN_EXPIRE_TIME = true →
        AuthStorage.isTokenExpired f st now = (st, .ok false))) := by
  refine ⟨?_, ?_, ?_⟩
  · intro s e hf hget hs hp
    unfold AuthStorage.isTokenExpired CacheStorageService.getItem asyncStorageGetItem
    simp [hf, hget, hs, hp]
  · intro hf hget
    unfold AuthStorage.isTokenExpired CacheStorageService.getItem asyncStorageGetItem
    simp [hf, hget]
  · intro hf
    unfold AuthStorage.isTokenExpired CacheStorageService.getItem asyncStorageGetItem
    simp [hf]

/-- C3 witness: at a stored expiry of 700000 ms, now = 500000 falls inside the
5-minute buffer window before expiry (500000 >= 700000 - 300000), so the token
counts as expired; with no stored record the check is false. -/
theorem C3_witness :
    AuthStorage.isTokenExpired noFaults
        ⟨⟨[]⟩, ⟨[(STORAGE_KEYS.TOKEN_EXPIRE_TIME, "700000")]⟩⟩ 500000 =
      (⟨⟨[]⟩, ⟨[(STORAGE_KEYS.TOKEN_EXPIRE_TIME, "700000")]⟩⟩, .ok true)
    ∧ AuthStorage.isTokenExpired noFaults StoreState.empty 500000 =
        (StoreState.empty, .ok false) := by
  constructor
  · have := (C3_isTokenExpired_spec noFaults
      ⟨⟨[]⟩, ⟨[(STORAGE_KEYS.TOKEN_EXPIRE_TIME, "700000")]⟩⟩ 500000).1
      "700000" 700000 rfl (by decide) (by decide) (by decide)
    simpa using this
  · have := (C3_isTokenExpired_spec noFaults StoreState.empty 500000).2.1 rfl (by decide)
    simpa using this

/-- C4: whether the POST to the logout endpoint succeeds or fails, logout()
(with fault-free removals) removes all four Credential Store entries, resolves
without propagating the endpoint failure, and its outcome is entirely
independent of the endpoint outcome. -/
theorem C4_logout_clears_store (f : FaultSpec) (st : StoreState)
    (api : Except NetworkError Unit) (h : NoRemoveFaults f) :
    (AuthService.logout f st api).2 = .ok ()
    ∧ clearedAuthData (AuthService.logout f st api).1
    ∧ AuthService.logout f st api = AuthService.logout f st (.ok ()) := by
  have hca := clearAll_clears f st h
  have heq : ∀ api2 : Except NetworkError Unit,
      AuthService.logout f st api2 = ((AuthStorage.clearAll f st).1, .ok ()) := by
    intro api2
    unfold AuthService.logout
    cases hc : AuthStorage.clearAll f st with
    | mk st1 r =>
        have : r = .ok () := by
          have := hca.2
          rw [hc] at this
          exact this
        subst this
        rfl
  refine ⟨?_, ?_, ?_⟩
  · rw [heq api]
  · rw [heq api]
    exact hca.1
  · rw [heq api, heq (.ok ())]

/-- C4 witness: logout at a store holding all four entries, with a failing
endpoint call, resolves and leaves all four entries absent. -/
theorem C4_witness :
    clearedAuthData
      (AuthService.logout noFaults
        ⟨⟨[(STORAGE_KEYS.AUTH_TOKEN, "A1"), (STORAGE_KEYS.REFRESH_TOKEN, "R1")]⟩,
         ⟨[(STORAGE_KEYS.TOKEN_EXPIRE_TIME, "700000"), (STORAGE_KEYS.USER_INFO, "u")]⟩⟩
        (.error ⟨.noNetwork, none⟩)).1 :=
  (C4_logout_clears_store noFaults
    ⟨⟨[(STORAGE_KEYS.AUTH_TOKEN, "A1"), (STORAGE_KEYS.REFRESH_TOKEN, "R1")]⟩,
     ⟨[(STORAGE_KEYS.TOKEN_EXPIRE_TIME, "700000"), (STORAGE_KEYS.USER_INFO, "u")]⟩⟩
    (.error ⟨.noNetwork, none⟩) (fun _ => ⟨rfl, rfl⟩)).2.1

/-- C10: refreshToken() invoked while no refresh token is stored fails with
"No refresh token available" without calling the refresh endpoint, and (with
fault-free removals) still clears all four Credential Store entries; more
generally, every failing run of refreshToken() leaves the entire store
cleared before re-raising. -/
theorem C10_refreshToken_failure_clears (f : FaultSpec) (st : StoreState) (now : Int)
    (endpoint : Except NetworkError TokenInfo) (h : NoRemoveFaults f) :
    ((AuthStorage.getRefreshToken f st).2 = .ok none →
      (AuthService.refreshToken f st now endpoint).1.2 = .error .noRefreshToken
      ∧ (AuthService.refreshToken f st now endpoint).2 = false
      ∧ clearedAuthData (AuthService.refreshToken f st now endpoint).1.1)
    ∧ (∀ e, (AuthService.refreshToken f st now endpoint).1.2 = .error e →
        clearedAuthData (AuthService.refreshToken f st now endpoint).1.1) := by
  constructor
  · intro hnone
    rw [getRefreshToken_eq] at hnone
    simp only [Except.ok.injEq] at hnone
    rw [refreshToken_eq]
    simp only [hnone]
    exact ⟨by rw [(refreshCatch_eq f st .noRefreshToken h).1], by trivial,
      (refreshCatch_eq f st .noRefreshToken h).2⟩
  · intro e herr
    rw [refreshToken_eq] at herr ⊢
    cases hv : (if f.secureGetFails STORAGE_KEYS.REFRESH_TOKEN = true then none
                else st.secure.get STORAGE_KEYS.REFRESH_TOKEN) with
    | none =>
        simp only [hv] at herr ⊢
        exact (refreshCatch_eq f st .noRefreshToken h).2
    | some rtok =>
        simp only [hv] at herr ⊢
        by_cases hrt : rtok = ""
        · simp only [hrt, if_pos rfl] at herr ⊢
          exact (refreshCatch_eq f st .noRefreshToken h).2
        · simp only [if_neg hrt] at herr ⊢
          cases endpoint with
          | error ne =>
              exact (refreshCatch_eq f st (.network ne) h).2
          | ok tok =>
              cases hsv : AuthStorage.saveToken f st now tok with
              | mk st2 rs =>
                  cases rs with
                  | ok u =>
                      simp only [hsv] at herr
                      exact Except.noConfusion herr
                  | error e2 =>
                      simp only [hsv]
                      exact (refreshCatch_eq f st2 (.storage e2) h).2

/-- C10 witness: refreshToken on a store holding a valid access token but no
refresh token fails with the no-refresh-token error, performs no network
call, and wipes the still-valid access token with the rest of the store. -/
theorem C10_witness :
    (AuthService.refreshToken noFaults ⟨⟨[(STORAGE_KEYS.AUTH_TOKEN, "A1")]⟩, ⟨[]⟩⟩ 0
        (.ok ⟨"A2", some "R2", some 3600⟩)).1.2 = .error .noRefreshToken
    ∧ (AuthService.refreshToken noFaults ⟨⟨[(STORAGE_KEYS.AUTH_TOKEN, "A1")]⟩, ⟨[]⟩⟩ 0
        (.ok ⟨"A2", some "R2", some 3600⟩)).2 = false
    ∧ clearedAuthData
        (AuthService.refreshToken noFaults ⟨⟨[(STORAGE_KEYS.AUTH_TOKEN, "A1")]⟩, ⟨[]⟩⟩ 0
          (.ok ⟨"A2", some "R2", some 3600⟩)).1.1 :=
  (C10_refreshToken_failure_clears noFaults ⟨⟨[(STORAGE_KEYS.AUTH_TOKEN, "A1")]⟩, ⟨[]⟩⟩ 0
    (.ok ⟨"A2", some "R2", some 3600⟩) (fun _ => ⟨rfl, rfl⟩)).1 (by decide)

/-- C8: when the backing stores fault, every read operation (getItem and
getObject in both partitions, and the auth-storage getters built on them)
resolves to absent (null) without the state changing and without throwing,
while every write or removal (setItem, setObject and removeItem, in both
partitions) propagates the error to the caller. -/
theorem C8_read_degrades_write_propagates
    (f : FaultSpec) (st : StoreState) (k v : String) (codec : JsonCodec User)
    (u : User)
    (hcg : ∀ k2, f.cacheGetFails k2 = true) (hsg : ∀ k2, f.secureGetFails k2 = true)
    (hcs : f.cacheSetFails k = true) (hss : f.secureSetFails k = true)
    (hcr : f.cacheRemoveFails k = true) (hsr : f.secureRemoveFails k = true) :
    CacheStorageService.getItem f st k = (st, .ok none)
    ∧ SecureStorageService.getItem f st k = (st, .ok none)
    ∧ CacheStorageService.getObject codec f st k = (st, .ok none)
    ∧ AuthStorage.getAccessToken f st = (st, .ok none)
    ∧ AuthStorage.getRefreshToken f st = (st, .ok none)
    ∧ AuthStorage.getUser codec f st = (st, .ok none)
    ∧ CacheStorageService.setItem f st k v = (st, .error (.backend k))
    ∧ SecureStorageService.setItem f st k v = (st, .error (.backend k))
    ∧ CacheStorageService.setObject codec f st k u = (st, .error (.backend k))
    ∧ CacheStorageService.removeItem f st k = (st, .error (.backend k))
    ∧ SecureStorageService.removeItem f st k = (st, .error (.backend k))
    ∧ SecureStorageService.getObject codec f st k = (st, .ok none)
    ∧ SecureStorageService.setObject codec f st k u = (st, .error (.backend k)) := by
  refine ⟨?_, ?_, ?_, ?_, ?_, ?_, ?_, ?_, ?_, ?_, ?_, ?_, ?_⟩
  · simp [CacheStorageService.getItem, asyncStorageGetItem, hcg k]
  · simp [SecureStorageService.getItem, secureStoreGetItem, hsg k]
  · simp [CacheStorageService.getObject, CacheStorageService.getItem,
      asyncStorageGetItem, hcg k]
  · simp [AuthStorage.getAccessToken, SecureStorageService.getItem,
      secureStoreGetItem, hsg STORAGE_KEYS.AUTH_TOKEN]
  · simp [AuthStorage.getRefreshToken, SecureStorageService.getItem,
      secureStoreGetItem, hsg STORAGE_KEYS.REFRESH_TOKEN]
  · simp [AuthStorage.getUser, CacheStorageService.getObject,
      CacheStorageService.getItem, asyncStorageGetItem, hcg STORAGE_KEYS.USER_INFO]
  · simp [CacheStorageService.setItem, asyncStorageSetItem, hcs]
  · simp [SecureStorageService.setItem, secureStoreSetItem, hss]
  · simp [CacheStorageService.setObject, CacheStorageService.setItem,
      asyncStorageSetItem, hcs]
  · simp [CacheStorageService.removeItem, asyncStorageRemoveItem, hcr]
  · simp [SecureStorageService.removeItem, secureStoreRemoveItem, hsr]
  · simp [SecureStorageService.getObject, SecureStorageService.getItem,
      secureStoreGetItem, hsg k]
  · simp [SecureStorageService.setObject, SecureStorageService.setItem,
      secureStoreSetItem, hss]

/-- C8 witness: with every backend operation faulting, a read resolves to
absent and a write rejects, at a concrete key. -/
theorem C8_witness :
    CacheStorageService.getItem allReadFaults StoreState.empty "k" =
      (StoreState.empty, .ok none)
    ∧ CacheStorageService.setItem allReadFaults StoreState.empty "k" "v" =
        (StoreState.empty, .error (.backend "k")) :=
  ⟨(C8_read_degrades_write_propagates allReadFaults StoreState.empty "k" "v"
      userCodecTriv ⟨"1", "alice"⟩ (fun _ => rfl) (fun _ => rfl) rfl rfl rfl rfl).1,
   (C8_read_degrades_write_propagates allReadFaults StoreState.empty "k" "v"
      userCodecTriv ⟨"1", "alice"⟩ (fun _ => rfl) (fun _ => rfl) rfl rfl rfl rfl).2.2.2.2.2.2.1⟩

/-- C9: for every value whose JSON serialization round-trips (parse after
stringify recovers the value, and the serialization is a nonempty string —
what "JSON-serializable" demands), setObject followed by getObject at the same
key returns that value, provided neither backend call faults at the key. -/
theorem C9_setObject_getObject_roundtrip {α : Type} (codec : JsonCodec α)
    (f : FaultSpec) (st : StoreState) (k : String) (v : α)
    (hset : f.cacheSetFails k = false) (hget : f.cacheGetFails k = false)
    (hrt : codec.parse (codec.stringify v) = some v) (hne : codec.stringify v ≠ "") :
    CacheStorageService.setObject codec f st k v =
      ({ st with cache := st.cache.set k (codec.stringify v) }, .ok ())
    ∧ CacheStorageService.getObject codec f
        { st with cache := st.cache.set k (codec.stringify v) } k =
        ({ st with cache := st.cache.set k (codec.stringify v) }, .ok (some v)) := by
  constructor
  · simp [CacheStorageService.setObject, CacheStorageService.setItem,
      asyncStorageSetItem, hset]
  · have hgot : (({ st with cache := st.cache.set k (codec.stringify v) } :
        StoreState)).cache.get k = some (codec.stringify v) := by
      simp [KV.get_set]
    simp [CacheStorageService.getObject, CacheStorageService.getItem,
      asyncStorageGetItem, hget, hgot, hne, hrt]

/-- C9 witness: round-tripping the user record through setObject/getObject at
a concrete key returns the stored user. -/
theorem C9_witness :
    CacheStorageService.getObject userCodecTriv noFaults
        (CacheStorageService.setObject userCodecTriv noFaults StoreState.empty
          "@ExpoTemplate:user_info" ⟨"1", "alice"⟩).1 "@ExpoTemplate:user_info" =
      ((CacheStorageService.setObject userCodecTriv noFaults StoreState.empty
          "@ExpoTemplate:user_info" ⟨"1", "alice"⟩).1, .ok (some ⟨"1", "alice"⟩)) := by
  have h := C9_setObject_getObject_roundtrip userCodecTriv noFaults StoreState.empty
    "@ExpoTemplate:user_info" ⟨"1", "alice"⟩ rfl rfl (by decide) (by decide)
  rw [h.1]
  exact h.2

/-- C5: checkAuth() returns true exactly when a (truthy) stored access token
exists and either the token is not expired or the refresh attempt succeeds;
in every other case — no token, or an expired token whose refresh fails — it
returns false.  The embedding is total, reflecting that the outer catch turns
any exception into false and the method never throws. -/
theorem C5_checkAuth_iff (f : FaultSpec) (st : StoreState) (now : Int)
    (endpoint : Except NetworkError TokenInfo) :
    (AuthService.checkAuth f st now endpoint).2 = true ↔
      (∃ t, (AuthStorage.getAccessToken f st).2 = .ok (some t) ∧ t ≠ ""
        ∧ ((AuthStorage.isTokenExpired f st now).2 = .ok false
           ∨ (AuthService.refreshToken f st now endpoint).1.2 = .ok ())) := by
  unfold AuthService.checkAuth
  rw [getAccessToken_eq]
  cases hv : (if f.secureGetFails STORAGE_KEYS.AUTH_TOKEN = true then none
              else st.secure.get STORAGE_KEYS.AUTH_TOKEN) with
  | none => simp
  | some t =>
      by_cases ht : t = ""
      · subst ht
        simp
      · obtain ⟨b, hb⟩ := isTokenExpired_ok f st now
        cases b with
        | false => simp [hb, ht]
        | true =>
            cases hrt : AuthService.refreshToken f st now endpoint with
            | mk p nc =>
                cases p with
                | mk st3 r =>
                    cases r with
                    | ok u =>
                        cases u
                        simp [hb, hrt, ht]
                    | error e2 => simp [hb, hrt, ht]

/-- C5 witness: a stored non-expired access token makes checkAuth true even
when the refresh endpoint would fail. -/
theorem C5_witness :
    (AuthService.checkAuth noFaults ⟨⟨[(STORAGE_KEYS.AUTH_TOKEN, "A1")]⟩, ⟨[]⟩⟩ 0
      (.error ⟨.noNetwork, none⟩)).2 = true :=
  (C5_checkAuth_iff noFaults ⟨⟨[(STORAGE_KEYS.AUTH_TOKEN, "A1")]⟩, ⟨[]⟩⟩ 0
    (.error ⟨.noNetwork, none⟩)).mpr
    ⟨"A1", by decide, by decide, .inl (by decide)⟩

/-- C6: the login scenario — response user {id:"1", username:"alice"} and
token {accessToken:"A1", refreshToken:"R1", expiresIn:3600} — leaves
accessToken "A1" and refreshToken "R1" in the secure partition, tokenExpireAt
now + 3600*1000 (as a decimal string) in the general partition, the
JSON-serialized user persisted, and the session authenticated with that user
and token. -/
theorem C6_login_scenario (codec : JsonCodec User) (st : StoreState) (now : Int)
    (sess0 : SessionState) :
    (loginScenario codec st now sess0).2 = .ok ()
    ∧ (loginScenario codec st now sess0).1.2.secure.get STORAGE_KEYS.AUTH_TOKEN =
        some "A1"
    ∧ (loginScenario codec st now sess0).1.2.secure.get STORAGE_KEYS.REFRESH_TOKEN =
        some "R1"
    ∧ (loginScenario codec st now sess0).1.2.cache.get STORAGE_KEYS.TOKEN_EXPIRE_TIME =
        some (toString (now + 3600 * 1000))
    ∧ (loginScenario codec st now sess0).1.2.cache.get STORAGE_KEYS.USER_INFO =
        some (codec.stringify ⟨"1", "alice"⟩)
    ∧ (loginScenario codec st now sess0).1.1 =
        ⟨.authenticated, some ⟨"1", "alice"⟩, some "A1"⟩ := by
  have k1 : STORAGE_KEYS.AUTH_TOKEN ≠ STORAGE_KEYS.REFRESH_TOKEN := by decide
  have k2 : STORAGE_KEYS.TOKEN_EXPIRE_TIME ≠ STORAGE_KEYS.USER_INFO := by decide
  have hr1 : ("R1" : String) ≠ "" := by decide
  have he : (3600 : Int) ≠ 0 := by decide
  unfold loginScenario AuthProvider.login AuthService.login AuthStorage.saveToken
    AuthStorage.saveUser CacheStorageService.setObject AuthStorage.getAccessToken
    SecureStorageService.setItem CacheStorageService.setItem
    SecureStorageService.getItem secureStoreSetItem asyncStorageSetItem
    secureStoreGetItem StOut.bind
  simp [noFaults, KV.get_set, k1, k2, hr1, he]

/-- C7: the startup initialization always ends with status authenticated or
unauthenticated, never leaving it at loading (or idle): when both a (truthy)
stored token and a stored user are read, checkAuth decides — true restores
authenticated with the stored user and token, false clears the store (shown
under fault-free removals) and sets unauthenticated; when either is absent the
status is set to unauthenticated directly.  Exception paths (faulting reads,
a rejecting clearAll) are all absorbed into the unauthenticated outcome by the
embedding's total branches, mirroring the outer catch. -/
theorem C7_initAuth_terminal_status (codec : JsonCodec User) (f : FaultSpec)
    (st : StoreState) (now : Int) (endpoint : Except NetworkError TokenInfo)
    (sess0 : SessionState) :
    ((AuthProvider.initAuth codec f st now endpoint sess0).1.status = .authenticated
      ∨ (AuthProvider.initAuth codec f st now endpoint sess0).1.status = .unauthenticated)
    ∧ (∀ t u, (AuthStorage.getAccessToken f st).2 = .ok (some t) → t ≠ "" →
        (AuthStorage.getUser codec f st).2 = .ok (some u) →
        ((AuthService.checkAuth f st now endpoint).2 = true →
          (AuthProvider.initAuth codec f st now endpoint sess0).1 =
            ⟨.authenticated, some u, some t⟩)
        ∧ ((AuthService.checkAuth f st now endpoint).2 = false → NoRemoveFaults f →
          (AuthProvider.initAuth codec f st now endpoint sess0).1.status =
            .unauthenticated
          ∧ clearedAuthData (AuthProvider.initAuth codec f st now endpoint sess0).2))
    ∧ ((AuthStorage.getAccessToken f st).2 = .ok none
        ∨ (AuthStorage.getUser codec f st).2 = .ok none →
        (AuthProvider.initAuth codec f st now endpoint sess0).1 =
          { sess0 with status := .unauthenticated }) := by
  obtain ⟨w, hw⟩ := getUser_eq codec f st
  unfold AuthProvider.initAuth
  rw [getAccessToken_eq]
  simp only [hw]
  cases hv : (if f.secureGetFails STORAGE_KEYS.AUTH_TOKEN = true then none
              else st.secure.get STORAGE_KEYS.AUTH_TOKEN) with
  | none =>
      cases w with
      | none => simp
      | some u0 => simp
  | some t0 =>
      cases w with
      | none => simp
      | some u0 =>
          by_cases ht0 : t0 = ""
          · subst ht0
            simp
          · simp only [if_neg ht0]
            cases hca : AuthService.checkAuth f st now endpoint with
            | mk st3 cb =>
                cases cb with
                | true =>
                    refine ⟨.inl (by trivial), ?_, ?_⟩
                    · intro t u h1 h2 h3
                      simp only [Except.ok.injEq, Option.some.injEq] at h1 h3
                      subst h1
                      subst h3
                      exact ⟨fun _ => rfl, fun hfalse _ => by simp at hfalse⟩
                    · intro hcon
                      rcases hcon with hcon | hcon <;> simp at hcon
                | false =>
                    refine ⟨.inr (by trivial), ?_, ?_⟩
                    · intro t u h1 h2 h3
                      refine ⟨fun htrue => by simp at htrue,
                        fun _ hnf => ⟨by trivial, ?_⟩⟩
                      exact (clearAll_clears f st3 hnf).1
                    · intro hcon
                      rcases hcon with hcon | hcon <;> simp at hcon

/-- C7 witness: with an empty store the startup sequence resolves directly to
unauthenticated, leaving neither loading nor idle. -/
theorem C7_witness :
    (AuthProvider.initAuth userCodecTriv noFaults StoreState.empty 0
        (.error ⟨.noNetwork, none⟩) ⟨.idle, none, none⟩).1 =
      ⟨.unauthenticated, none, none⟩ :=
  (C7_initAuth_terminal_status userCodecTriv noFaults StoreState.empty 0
    (.error ⟨.noNetwork, none⟩) ⟨.idle, none, none⟩).2.2 (.inl (by decide))

end ExpoTemplate
